import Mathlib

/-
  Verification of the pipette state machine and liquid-handling protocol of
  science_jubilee (src/science_jubilee/tools/Pipette.py).

  The Motion Controller (Machine), the Labware coordinate model (Well,
  Location, Labware._getxyz) and the Tool activation check are external
  collaborators not present under src/; they are modelled from the spec.
  All numeric quantities are modelled as exact rationals.
-/

namespace SJ

/-- Modelled from the spec: the Labware Directory's well geometry, an
    (x, y, z) resting position plus a diameter and a top surface z
    coordinate, the well.top_ attribute read by blowout, air_gap and mix. -/
structure Well where
  x : ℚ
  y : ℚ
  z : ℚ
  diameter : ℚ
  top_ : ℚ
  deriving DecidableEq

/-- Modelled from the spec: a location descriptor is a well reference, an
    (x, y, z) tuple, or a location-within-labware wrapper carrying a point
    and the labware well it refers to. -/
inductive Loc where
  | well (w : Well)
  | tup (x y z : ℚ)
  | loc (x y z : ℚ) (labware : Well)
  deriving DecidableEq

/-- Modelled from the spec: Labware._getxyz resolves a location descriptor
    to machine coordinates. A bare well resolves to its resting position. -/
def getxyz : Loc → ℚ × ℚ × ℚ
  | Loc.well w => (w.x, w.y, w.z)
  | Loc.tup x y z => (x, y, z)
  | Loc.loc x y z _ => (x, y, z)

/-- Motion commands issued to the Motion Controller collaborator, one
    constructor per kind of call site in Pipette.py. Speeds are opaque to
    every claim and are not recorded. -/
inductive Cmd where
  | safeZ
  | moveXY (x y : ℚ)
  | moveZ (z : ℚ)
  | moveV (v : ℚ)
  | probeZ (z : ℚ)
  | moveRelV (dv : ℚ)
  | moveRelZ (dz : ℚ)
  | gcodeArc (x y : ℚ) (zOpt : Option ℚ) (i j : ℚ)
  | gcodeWait
  | gcodeZOffset (idx : ℕ) (z : ℚ)
  deriving DecidableEq

/-- Modelled from the spec: the Motion Controller's position state, the
    dict returned by get_position, plus its configured safe height and the
    deck safe_z read by pickup_tip. -/
structure Machine where
  x : ℚ
  y : ℚ
  z : ℚ
  v : ℚ
  safeZHeight : ℚ
  deckSafeZ : ℚ
  deriving DecidableEq

/-- Python exceptions raised by Pipette.py: ToolStateError and
    ToolConfigurationError from the Tool module, StopIteration from the tip
    iterator, and the untyped AttributeError a None current_well produces. -/
inductive PErr where
  | toolStateError
  | toolConfigurationError
  | stopIteration
  | attributeError
  deriving DecidableEq

/-- The tip iterator of Pipette.py: a tip list plus a signed cursor, as in
    class pipette_iterator. -/
structure pipette_iterator where
  tiprack : List Well
  index : ℤ
  deriving DecidableEq

/-- Errors of the tip iterator: StopIteration raised by next and prev, and
    the raw IndexError a direct out-of-range access in prev would raise. -/
inductive IterErr where
  | stopIteration
  | indexError
  deriving DecidableEq

/-- Python list indexing: nonnegative indices below the length, negative
    indices wrapping from the end, IndexError (none) otherwise. -/
def pyGet {α : Type} (l : List α) (i : ℤ) : Option α :=
  if 0 ≤ i ∧ i < l.length then l.get? i.toNat
  else if -(l.length : ℤ) ≤ i ∧ i < 0 then l.get? (i + l.length).toNat
  else none

/-- pipette_iterator.next: try tiprack[index], increment on success,
    StopIteration on IndexError with the cursor untouched. -/
def pipette_iterator.next (it : pipette_iterator) :
    pipette_iterator × Except IterErr Well :=
  match pyGet it.tiprack it.index with
  | some result => ({ it with index := it.index + 1 }, Except.ok result)
  | none => (it, Except.error IterErr.stopIteration)

/-- pipette_iterator.prev: decrement the cursor first, raise StopIteration
    if it became negative, otherwise index directly into the rack. -/
def pipette_iterator.prev (it : pipette_iterator) :
    pipette_iterator × Except IterErr Well :=
  let it2 : pipette_iterator := { it with index := it.index - 1 }
  if it2.index < 0 then (it2, Except.error IterErr.stopIteration)
  else
    match pyGet it2.tiprack it2.index with
    | some result => (it2, Except.ok result)
    | none => (it2, Except.error IterErr.indexError)

/-- The new_tip policy parameter of transfer, accepted but unused in the
    source (explicit TODO there). -/
inductive NewTip where
  | always
  | never
  | once
  deriving DecidableEq

/-- The Pipette tool state: the configuration record fixed at construction
    together with the mutable runtime flags of Pipette.__init__ and the tip
    inventory attached by add_tiprack. -/
structure PState where
  index : ℕ
  max_volume : ℚ
  min_volume : ℚ
  zero_position : ℚ
  blowout_position : ℚ
  drop_tip_position : ℚ
  mm_to_ul : ℚ
  has_tip : Bool
  is_primed : Bool
  current_well : Option Well
  first_available_tip : Option Well
  tipiterator : pipette_iterator
  tip_length : ℚ
  tip_overlap : ℚ
  tool_offset : ℚ
  deriving DecidableEq

/-- Result of running one pipette operation: the tool state and machine
    state after it, the motion commands issued, and the exception it ended
    with if it raised one (commands issued before the raise are kept). -/
structure Res where
  p : PState
  m : Machine
  trace : List Cmd
  err : Option PErr
  deriving DecidableEq

/-- Sequencing: once an exception is raised the rest of the operation does
    not run; otherwise traces accumulate in order. -/
def Res.andThen (r : Res) (f : PState → Machine → Res) : Res :=
  match r.err with
  | some _ => r
  | none =>
    let r2 := f r.p r.m
    ⟨r2.p, r2.m, r.trace ++ r2.trace, r2.err⟩

/-- An operation step that issues no command and raises nothing. -/
def mkRes (p : PState) (m : Machine) : Res := ⟨p, m, [], none⟩

/-- An operation step that raises an exception before any further motion. -/
def raise (p : PState) (m : Machine) (e : PErr) : Res := ⟨p, m, [], some e⟩

/-- Modelled from the spec: machine.safe_z_movement retracts the bed to the
    safe height before horizontal travel. -/
def safe_z (p : PState) (m : Machine) : Res :=
  ⟨p, { m with z := m.safeZHeight }, [Cmd.safeZ], none⟩

/-- Modelled from the spec: machine.move_to on the x and y axes. -/
def moveXY (p : PState) (m : Machine) (x y : ℚ) : Res :=
  ⟨p, { m with x := x, y := y }, [Cmd.moveXY x y], none⟩

/-- Modelled from the spec: machine.move_to on the z axis. -/
def moveZ (p : PState) (m : Machine) (z : ℚ) : Res :=
  ⟨p, { m with z := z }, [Cmd.moveZ z], none⟩

/-- Modelled from the spec: machine.move_to on the plunger v axis. -/
def moveV (p : PState) (m : Machine) (v : ℚ) : Res :=
  ⟨p, { m with v := v }, [Cmd.moveV v], none⟩

/-- Modelled from the spec: the halt-on-sensor z probing move of
    _pickup_tip (move_to with param H4). -/
def probeZ (p : PState) (m : Machine) (z : ℚ) : Res :=
  ⟨p, { m with z := z }, [Cmd.probeZ z], none⟩

/-- Modelled from the spec: machine.move, a relative move of the plunger. -/
def moveRelV (p : PState) (m : Machine) (dv : ℚ) : Res :=
  ⟨p, { m with v := m.v + dv }, [Cmd.moveRelV dv], none⟩

/-- Modelled from the spec: machine.move, a relative move of the z axis. -/
def moveRelZ (p : PState) (m : Machine) (dz : ℚ) : Res :=
  ⟨p, { m with z := m.z + dz }, [Cmd.moveRelZ dz], none⟩

/-- Modelled from the spec: the G2 circular-arc gcode issued by stir, which
    ends at the given x, y (and z when present). -/
def gcodeArc (p : PState) (m : Machine) (x y : ℚ) (zOpt : Option ℚ) (i j : ℚ) : Res :=
  ⟨p, { m with x := x, y := y, z := zOpt.getD m.z }, [Cmd.gcodeArc x y zOpt i j], none⟩

/-- Modelled from the spec: the M400 wait-for-motion-complete gcode. -/
def gcodeWait (p : PState) (m : Machine) : Res :=
  ⟨p, m, [Cmd.gcodeWait], none⟩

/-- Python round to the nearest integer with ties to even, round(q). -/
def pyRound0 (q : ℚ) : ℤ :=
  if q - (⌊q⌋ : ℚ) = 1 / 2 then (if 2 ∣ ⌊q⌋ then ⌊q⌋ else ⌊q⌋ + 1)
  else round q

/-- Python round(q, 2): round at the second decimal, ties to even. -/
def pyRound2 (q : ℚ) : ℚ := (pyRound0 (q * 100) : ℚ) / 100

/-- The tip_check decorator: raise ToolStateError before running the body
    whenever has_tip is false. -/
def tip_check (p : PState) (m : Machine) (f : PState → Machine → Res) : Res :=
  if p.has_tip = false then raise p m PErr.toolStateError else f p m

/-- Pipette.vol2move: convert a volume in uL to plunger travel in mm by
    the configured factor. -/
def vol2move (p : PState) (vol : ℚ) : ℚ := vol * p.mm_to_ul

/-- Pipette.prime: drive the plunger to zero_position and set is_primed. -/
def prime (p : PState) (m : Machine) (s : ℚ) : Res :=
  (moveV p m p.zero_position).andThen fun p m =>
    mkRes { p with is_primed := true } m

/-- Pipette._aspirate: auto-prime when unprimed, then a plunger move to the
    current plunger position minus vol2move(vol). -/
def _aspirate (p : PState) (m : Machine) (vol : ℚ) (s : ℚ) : Res :=
  (if p.is_primed = true then mkRes p m else prime p m 2500).andThen fun p m =>
    let dv := vol2move p vol * (-1)
    let end_pos := m.v + dv
    moveV p m end_pos

/-- The current_well update both aspirate and dispense perform from a
    location argument: a bare well is recorded as is, a Location wrapper
    records its labware, a tuple records nothing. -/
def setCurrentWell (p : PState) (location : Loc) : PState :=
  match location with
  | Loc.well w => { p with current_well := some w }
  | Loc.loc _ _ _ lw => { p with current_well := some lw }
  | Loc.tup _ _ _ => p

/-- Pipette.aspirate: tip check, resolve the location, record the current
    well, retract to safe z, travel, descend, then _aspirate. -/
def aspirate (p : PState) (m : Machine) (vol : ℚ) (location : Loc) (s : ℚ) : Res :=
  tip_check p m fun p m =>
    let xyz := getxyz location
    let p := setCurrentWell p location
    (safe_z p m).andThen fun p m =>
    (moveXY p m xyz.1 xyz.2.1).andThen fun p m =>
    (moveZ p m xyz.2.2).andThen fun p m =>
    _aspirate p m vol s

/-- Pipette._dispense: tip check, then a plunger move to the current
    plunger position plus vol2move(vol). -/
def _dispense (p : PState) (m : Machine) (vol : ℚ) (s : ℚ) : Res :=
  tip_check p m fun p m =>
    let dv := vol2move p vol
    let end_pos := m.v + dv
    moveV p m end_pos

/-- Pipette.dispense: tip check, resolve the location; for a bare well whose
    resolved z equals the well's resting z the travel z is raised by 10;
    then safe z retract, travel, descend, _dispense. -/
def dispense (p : PState) (m : Machine) (vol : ℚ) (location : Loc) (s : ℚ) : Res :=
  tip_check p m fun p m =>
    let xyz := getxyz location
    let p := setCurrentWell p location
    let z := match location with
      | Loc.well w => if xyz.2.2 = w.z then xyz.2.2 + 10 else xyz.2.2
      | _ => xyz.2.2
    (safe_z p m).andThen fun p m =>
    (moveXY p m xyz.1 xyz.2.1).andThen fun p m =>
    (moveZ p m z).andThen fun p m =>
    _dispense p m vol s

/-- Pipette.blowout: read current_well (an AttributeError when it is None),
    move 5 above the well top, drive the plunger to blowout_position, then
    re-prime. -/
def blowout (p : PState) (m : Machine) (s : ℚ) : Res :=
  tip_check p m fun p m =>
    match p.current_well with
    | none => raise p m PErr.attributeError
    | some well =>
      (moveZ p m (well.top_ + 5)).andThen fun p m =>
      (moveV p m p.blowout_position).andThen fun p m =>
      prime p m 2500

/-- Pipette.air_gap: compute dv = vol2move(vol) * -1, read current_well (an
    AttributeError when None), move 20 above the well top, then a relative
    plunger move by -1 * dv. -/
def air_gap (p : PState) (m : Machine) (vol : ℚ) : Res :=
  tip_check p m fun p m =>
    let dv := vol2move p vol * (-1)
    match p.current_well with
    | none => raise p m PErr.attributeError
    | some well =>
      (moveZ p m (well.top_ + 20)).andThen fun p m =>
      moveRelV p m (-1 * dv)

/-- The n mixing cycles of Pipette.mix: _aspirate then prime, n times. -/
def mixLoop (p : PState) (m : Machine) (vol : ℚ) (n : ℕ) (s : ℚ) : Res :=
  match n with
  | 0 => mkRes p m
  | Nat.succ k =>
    (_aspirate p m vol s).andThen fun p m =>
    (prime p m s).andThen fun p m =>
    mixLoop p m vol k s

/-- Pipette.mix: move 2 above the current well top (an AttributeError when
    current_well is None), prime, descend to the well's resting z, then n
    cycles of _aspirate and prime. -/
def mix (p : PState) (m : Machine) (vol : ℚ) (n : ℕ) (s : ℚ) : Res :=
  tip_check p m fun p m =>
    match p.current_well with
    | none => raise p m PErr.attributeError
    | some well =>
      (moveZ p m (well.top_ + 2)).andThen fun p m =>
      (prime p m 2500).andThen fun p m =>
      (moveZ p m well.z).andThen fun p m =>
      mixLoop p m vol n s

/-- The n_times arc repetitions of Pipette.stir: each iteration issues a G2
    arc back to the well centre (raised by height when given, followed by a
    z restore), then an M400 wait. -/
def stirLoop (p : PState) (m : Machine) (well : Well) (z radius : ℚ) (n : ℕ)
    (height : Option ℚ) : Res :=
  match n with
  | 0 => mkRes p m
  | Nat.succ k =>
    let i := -1 * radius
    let j : ℚ := 0
    (match height with
     | some h =>
       (gcodeArc p m well.x well.y (some (z + h)) i j).andThen fun p m =>
       (gcodeWait p m).andThen fun p m =>
       moveZ p m z
     | none =>
       (gcodeArc p m well.x well.y none i j).andThen fun p m =>
       gcodeWait p m).andThen fun p m =>
    stirLoop p m well z radius k height

/-- Pipette.stir: read current_well (an AttributeError when None) and the
    machine position; raise ToolStateError when the x position differs from
    round(well.x) AND the y position differs from round(well.y, 2);
    otherwise descend when the z position differs from round(z, 2), then
    stir n_times with radius diameter/2 - diameter/6. -/
def stir (p : PState) (m : Machine) (n_times : ℕ) (height : Option ℚ) : Res :=
  tip_check p m fun p m =>
    match p.current_well with
    | none => raise p m PErr.attributeError
    | some well =>
      let z := well.z + 1 / 2
      let posx := m.x
      let posy := m.y
      let posz := m.z
      if posx ≠ (pyRound0 well.x : ℚ) ∧ posy ≠ pyRound2 well.y then
        raise p m PErr.toolStateError
      else
        (if posz ≠ pyRound2 z then moveZ p m z else mkRes p m).andThen fun p m =>
        let radius := well.diameter / 2 - well.diameter / 6
        stirLoop p m well z radius n_times height

/-- The per-destination body of Pipette.transfer: travel to the source,
    _aspirate the already-converted vol_, optional mix_before, travel to the
    destination, _dispense vol_, optional mix_after, optional blowout. The
    mix tuples are passed to mix exactly as in the source, first component
    as the volume argument and second as the count. -/
def transferLoop (p : PState) (m : Machine) (vol_ : ℚ) (xs ys zs : ℚ)
    (source_well : Loc) (dsts : List Loc) (s : ℚ) (blowout_loc : Option Loc)
    (mix_before mix_after : Option (ℚ × ℕ)) : Res :=
  match dsts with
  | [] => mkRes p m
  | well :: rest =>
    let xyzd := getxyz well
    (safe_z p m).andThen fun p m =>
    (moveXY p m xs ys).andThen fun p m =>
    (moveZ p m zs).andThen fun p m =>
    (_aspirate (setCurrentWell p source_well) m vol_ s).andThen fun p m =>
    (match mix_before with
     | some mb => mix p m mb.1 mb.2 5000
     | none => mkRes p m).andThen fun p m =>
    (safe_z p m).andThen fun p m =>
    (moveXY p m xyzd.1 xyzd.2.1).andThen fun p m =>
    (moveZ p m xyzd.2.2).andThen fun p m =>
    (_dispense (setCurrentWell p well) m vol_ s).andThen fun p m =>
    (match mix_after with
     | some ma => mix p m ma.1 ma.2 5000
     | none => mkRes p m).andThen fun p m =>
    (match blowout_loc with
     | some _ => blowout p m 3000
     | none => mkRes p m).andThen fun p m =>
    transferLoop p m vol_ xs ys zs source_well rest s blowout_loc mix_before mix_after

/-- Pipette.transfer: tip check, convert vol once with vol2move, resolve
    the source, prime when unprimed, then run the per-destination loop over
    the destination list; new_tip is accepted and unused, as in the source. -/
def transfer (p : PState) (m : Machine) (vol : ℚ) (source_well : Loc)
    (destination_well : List Loc) (s : ℚ) (blowout_loc : Option Loc)
    (mix_before mix_after : Option (ℚ × ℕ)) (new_tip : NewTip) : Res :=
  tip_check p m fun p m =>
    let vol_ := vol2move p vol
    let xyzs := getxyz source_well
    (if p.is_primed = true then mkRes p m else prime p m 2500).andThen fun p m =>
    transferLoop p m vol_ xyzs.1 xyzs.2.1 xyzs.2.2 source_well destination_well s
      blowout_loc mix_before mix_after

/-- Pipette.update_z_offset: emit the G10 tool-offset gcode; the offset is
    tool_offset minus the tip length compensation when a tip is attached. -/
def update_z_offset (p : PState) (m : Machine) (tip : Bool) : Res :=
  let tip_offset := p.tip_length - p.tip_overlap
  let new_z := if tip = true then p.tool_offset - tip_offset else p.tool_offset
  ⟨p, m, [Cmd.gcodeZOffset p.index new_z], none⟩

/-- Pipette._pickup_tip: the vertical probing move when no tip is attached,
    otherwise ToolStateError with no motion. -/
def _pickup_tip (p : PState) (m : Machine) (z : ℚ) : Res :=
  if p.has_tip = false then probeZ p m z
  else raise p m PErr.toolStateError

/-- The tip-argument defaulting of Pipette.pickup_tip: an explicit target
    wins, otherwise the inventory head first_available_tip. -/
def resolveTip (p : PState) (tip_arg : Option Loc) : Option Loc :=
  match tip_arg with
  | some t => some t
  | none => p.first_available_tip.map Loc.well

/-- Pipette.pickup_tip: resolve the target tip, retract to safe z, travel
    to its (x, y), probe vertically via _pickup_tip (which raises
    ToolStateError when a tip is already attached), then set has_tip, apply
    the tip z offset and move the bed to deck safe z plus 10. A missing
    target (no argument and an unset inventory head) fails while resolving
    coordinates, before any motion. -/
def pickup_tip (p : PState) (m : Machine) (tip_arg : Option Loc) : Res :=
  match resolveTip p tip_arg with
  | none => raise p m PErr.attributeError
  | some tip =>
    let xyz := getxyz tip
    (safe_z p m).andThen fun p m =>
    (moveXY p m xyz.1 xyz.2.1).andThen fun p m =>
    (_pickup_tip p m xyz.2.2).andThen fun p m =>
    (update_z_offset { p with has_tip := true } m true).andThen fun p m =>
    moveZ p m (m.deckSafeZ + 10)

/-- Pipette._drop_tip: eject the plunger to drop_tip_position when a tip is
    attached, otherwise ToolConfigurationError with no motion. -/
def _drop_tip (p : PState) (m : Machine) : Res :=
  if p.has_tip = true then moveV p m p.drop_tip_position
  else raise p m PErr.toolConfigurationError

/-- Pipette.return_tip: travel to the given location or the inventory head,
    descend 25, eject via _drop_tip, ascend 25, re-prime, clear has_tip and
    restore the baseline z offset; the inventory cursor is not advanced. -/
def return_tip (p : PState) (m : Machine) (location : Option Loc) : Res :=
  match (match location with
         | some l => some l
         | none => p.first_available_tip.map Loc.well) with
  | none => raise p m PErr.attributeError
  | some l =>
    let xyz := getxyz l
    (safe_z p m).andThen fun p m =>
    (moveXY p m xyz.1 xyz.2.1).andThen fun p m =>
    (moveRelZ p m (-25)).andThen fun p m =>
    (_drop_tip p m).andThen fun p m =>
    (moveRelZ p m 25).andThen fun p m =>
    (prime p m 2500).andThen fun p m =>
    update_z_offset { p with has_tip := false } m false

/-- Pipette.increment_tip: first_available_tip becomes the iterator's next
    tip; a StopIteration from the exhausted iterator propagates with the
    state as the iterator left it. -/
def increment_tip (p : PState) (m : Machine) : Res :=
  match p.tipiterator.next with
  | (it, Except.ok w) =>
    mkRes { p with tipiterator := it, first_available_tip := some w } m
  | (it, Except.error _) =>
    raise { p with tipiterator := it } m PErr.stopIteration

/-- Pipette.drop_tip: tip check, travel to the drop location, eject via
    _drop_tip, re-prime, clear has_tip, restore the baseline z offset, then
    advance the tip inventory by one slot. -/
def drop_tip (p : PState) (m : Machine) (location : Loc) : Res :=
  tip_check p m fun p m =>
    let xyz := getxyz location
    (safe_z p m).andThen fun p m =>
    (moveXY p m xyz.1 xyz.2.1).andThen fun p m =>
    (_drop_tip p m).andThen fun p m =>
    (prime p m 2500).andThen fun p m =>
    (update_z_offset { p with has_tip := false } m false).andThen fun p m =>
    increment_tip p m

/-- A concrete source well for the scenarios below. -/
def srcW : Well := ⟨1, 2, 3, 6, 8⟩

/-- A concrete destination well for the scenarios below. -/
def dstW : Well := ⟨4, 5, 6, 6, 8⟩

/-- A concrete current well at (10, 20), resting z 3, diameter 6, top 30. -/
def wellA : Well := ⟨10, 20, 3, 6, 30⟩

/-- A concrete tip-rack slot. -/
def tipW : Well := ⟨50, 60, 70, 4, 72⟩

/-- The spec scenario pipette (max 300 uL, min 20 uL, factor 0.1 mm per uL)
    with a tip attached, primed, positioned over wellA. -/
def pBase : PState :=
  { index := 1, max_volume := 300, min_volume := 20, zero_position := 18,
    blowout_position := 22, drop_tip_position := 24, mm_to_ul := 1 / 10,
    has_tip := true, is_primed := true, current_well := some wellA,
    first_available_tip := some tipW, tipiterator := ⟨[tipW], 0⟩,
    tip_length := 12, tip_overlap := 2, tool_offset := -5 }

/-- The same pipette with no tip attached. -/
def pNoTip : PState := { pBase with has_tip := false }

/-- The same pipette with a tip but no recorded current well. -/
def pNoWell : PState := { pBase with current_well := none }

/-- A concrete machine state: position (10, 25, 3.5), plunger at 5. -/
def mBase : Machine :=
  { x := 10, y := 25, z := 7 / 2, v := 5, safeZHeight := 40, deckSafeZ := 35 }

/-- C8: the volume-to-displacement conversion is the pure total linear map
    v * k: it doubles with its argument, maps 0 to 0, and at the spec
    scenario factor 0.1 it maps 100 uL to exactly 10 mm. -/
theorem vol2move_linear (p : PState) (v : ℚ) :
    vol2move p (2 * v) = 2 * vol2move p v ∧ vol2move p 0 = 0 ∧
    pBase.mm_to_ul = 1 / 10 ∧ vol2move pBase 100 = 10 := by
  refine ⟨?_, ?_, by norm_num [pBase], by norm_num [vol2move, pBase]⟩
  · unfold vol2move; ring
  · unfold vol2move; ring

/-- C3: with has_tip false, each tip-required operation — aspirate,
    dispense, blowout, air_gap, mix, stir, drop_tip, transfer — returns
    exactly the ToolStateError raise: no motion command, no state change. -/
theorem tip_required_ops_fail_without_tip (p : PState) (m : Machine)
    (h : p.has_tip = false) (vol : ℚ) (loc : Loc) (s : ℚ) (n nt : ℕ)
    (ht : Option ℚ) (dsts : List Loc) (bl : Option Loc)
    (mb ma : Option (ℚ × ℕ)) (ntp : NewTip) :
    aspirate p m vol loc s = raise p m PErr.toolStateError ∧
    dispense p m vol loc s = raise p m PErr.toolStateError ∧
    blowout p m s = raise p m PErr.toolStateError ∧
    air_gap p m vol = raise p m PErr.toolStateError ∧
    mix p m vol n s = raise p m PErr.toolStateError ∧
    stir p m nt ht = raise p m PErr.toolStateError ∧
    drop_tip p m loc = raise p m PErr.toolStateError ∧
    transfer p m vol loc dsts s bl mb ma ntp = raise p m PErr.toolStateError := by
  obtain ⟨idx, mxv, mnv, zp, bp, dp, k, htp, ip, cw, fat, ti, tl, tov, tof⟩ := p
  replace h : htp = false := h
  subst h
  exact ⟨rfl, rfl, rfl, rfl, rfl, rfl, rfl, rfl⟩

/-- C3 witness: a freshly tipless pipette fails every tip-required
    operation with ToolStateError and an empty trace. -/
theorem tip_required_ops_fail_without_tip_witness :
    pNoTip.has_tip = false ∧
    (aspirate pNoTip mBase 50 (Loc.well wellA) 2000 = raise pNoTip mBase PErr.toolStateError ∧
     dispense pNoTip mBase 50 (Loc.well wellA) 2000 = raise pNoTip mBase PErr.toolStateError ∧
     blowout pNoTip mBase 2000 = raise pNoTip mBase PErr.toolStateError ∧
     air_gap pNoTip mBase 50 = raise pNoTip mBase PErr.toolStateError ∧
     mix pNoTip mBase 50 3 2000 = raise pNoTip mBase PErr.toolStateError ∧
     stir pNoTip mBase 1 none = raise pNoTip mBase PErr.toolStateError ∧
     drop_tip pNoTip mBase (Loc.well wellA) = raise pNoTip mBase PErr.toolStateError ∧
     transfer pNoTip mBase 50 (Loc.well wellA) [Loc.well dstW] 2000 none none none NewTip.always =
       raise pNoTip mBase PErr.toolStateError) :=
  ⟨rfl, tip_required_ops_fail_without_tip pNoTip mBase rfl 50 (Loc.well wellA) 2000 3 1
      none [Loc.well dstW] none none none NewTip.always⟩

/-- C1 counterexample: with a tip already attached, pickup_tip does raise
    ToolStateError, but only after issuing the safe-z retract and the
    horizontal travel — the trace of motion commands is not empty, refuting
    the zero-motion part of the claim. -/
theorem pickup_tip_moves_before_tip_check_cex :
    (pickup_tip pBase mBase (some (Loc.tup 7 8 9))).err = some PErr.toolStateError ∧
    (pickup_tip pBase mBase (some (Loc.tup 7 8 9))).trace = [Cmd.safeZ, Cmd.moveXY 7 8] ∧
    (pickup_tip pBase mBase (some (Loc.tup 7 8 9))).trace ≠ [] := by
  refine ⟨rfl, rfl, ?_⟩
  show [Cmd.safeZ, Cmd.moveXY 7 8] ≠ []
  simp

/-- C1 amended: with a tip already attached and a resolvable target tip,
    pickup_tip fails with ToolStateError; the safe-z retract and the
    horizontal travel to the tip are performed first, but no vertical
    probing motion is issued and the tool state is unchanged. -/
theorem pickup_tip_fails_after_travel (p : PState) (m : Machine)
    (tip_arg : Option Loc) (t : Loc) (hTip : p.has_tip = true)
    (hres : resolveTip p tip_arg = some t) :
    (pickup_tip p m tip_arg).err = some PErr.toolStateError ∧
    (pickup_tip p m tip_arg).trace = [Cmd.safeZ, Cmd.moveXY (getxyz t).1 (getxyz t).2.1] ∧
    (pickup_tip p m tip_arg).p = p := by
  obtain ⟨idx, mxv, mnv, zp, bp, dp, k, htp, ip, cw, fat, ti, tl, tov, tof⟩ := p
  replace hTip : htp = true := hTip
  subst hTip
  unfold pickup_tip
  rw [hres]
  exact ⟨rfl, rfl, rfl⟩

/-- C1 amended witness: the concrete tip-attached pipette travelling to a
    tuple target. -/
theorem pickup_tip_fails_after_travel_witness :
    pBase.has_tip = true ∧
    resolveTip pBase (some (Loc.tup 7 8 9)) = some (Loc.tup 7 8 9) ∧
    ((pickup_tip pBase mBase (some (Loc.tup 7 8 9))).err = some PErr.toolStateError ∧
     (pickup_tip pBase mBase (some (Loc.tup 7 8 9))).trace =
       [Cmd.safeZ, Cmd.moveXY (getxyz (Loc.tup 7 8 9)).1 (getxyz (Loc.tup 7 8 9)).2.1] ∧
     (pickup_tip pBase mBase (some (Loc.tup 7 8 9))).p = pBase) :=
  ⟨rfl, rfl, pickup_tip_fails_after_travel pBase mBase (some (Loc.tup 7 8 9))
      (Loc.tup 7 8 9) rfl rfl⟩

/-- C2: transfer converts the volume with vol2move and then hands the
    result to _aspirate and _dispense, which convert again; at the spec
    scenario (100 uL, factor 0.1, plunger at 5) the per-destination
    aspirate plunger target inside transfer is 4 (a displacement of
    vol * k * k = 1 mm) while a direct aspirate's target is -5 (a
    displacement of vol2move(100) = 10 mm), so transfer's plunger motion is
    not that of a direct aspirate followed by dispense. -/
theorem transfer_double_conversion :
    (transfer pBase mBase 100 (Loc.well srcW) [Loc.well dstW] 3000 none none none
        NewTip.always).trace =
      [Cmd.safeZ, Cmd.moveXY 1 2, Cmd.moveZ 3, Cmd.moveV 4,
       Cmd.safeZ, Cmd.moveXY 4 5, Cmd.moveZ 6, Cmd.moveV 5] ∧
    (aspirate pBase mBase 100 (Loc.well srcW) 2000).trace =
      [Cmd.safeZ, Cmd.moveXY 1 2, Cmd.moveZ 3, Cmd.moveV (-5)] ∧
    vol2move pBase 100 = 10 ∧
    mBase.v - vol2move pBase 100 = -5 ∧
    mBase.v - vol2move pBase (vol2move pBase 100) = 4 := by
  refine ⟨?_, ?_, ?_, ?_, ?_⟩ <;>
    norm_num [transfer, transferLoop, aspirate, tip_check, Res.andThen, safe_z, moveXY,
      moveZ, moveV, _aspirate, _dispense, prime, mkRes, vol2move, setCurrentWell, getxyz,
      pBase, mBase, srcW, dstW]

/-- C4: air_gap moves 20 above the well top with no horizontal travel, but
    its double negation (dv = vol2move(vol) * -1 followed by a relative
    move of -1 * dv) drives the plunger by plus vol2move(vol), the dispense
    direction, where an aspirate of the same volume moves the plunger down
    by vol2move(vol). -/
theorem air_gap_plunger_direction :
    (air_gap pBase mBase 100).trace = [Cmd.moveZ (wellA.top_ + 20), Cmd.moveRelV 10] ∧
    wellA.top_ + 20 = 50 ∧
    (air_gap pBase mBase 100).m.v = mBase.v + vol2move pBase 100 ∧
    (_aspirate pBase mBase 100 2000).m.v = mBase.v - vol2move pBase 100 ∧
    vol2move pBase 100 = 10 := by
  refine ⟨?_, ?_, ?_, ?_, ?_⟩ <;>
    norm_num [air_gap, _aspirate, tip_check, Res.andThen, moveZ, moveRelV, moveV, prime,
      mkRes, raise, vol2move, pBase, mBase, wellA]

/-- C5 counterexample: blowout on a tool with a tip but no recorded current
    well fails before any motion, but with the AttributeError of reading
    top_ on None, not with a ToolStateError. -/
theorem blowout_no_well_error_kind_cex :
    (blowout pNoWell mBase 3000).err = some PErr.attributeError ∧
    (blowout pNoWell mBase 3000).err ≠ some PErr.toolStateError ∧
    (blowout pNoWell mBase 3000).trace = [] := by
  refine ⟨rfl, ?_, rfl⟩
  show some PErr.attributeError ≠ some PErr.toolStateError
  simp

/-- C5 amended: with a tip attached and current_well None, each of blowout,
    air_gap and stir fails with no motion attempted, but the failure is the
    untyped AttributeError of dereferencing None, not a ToolStateError. -/
theorem no_well_ops_attribute_error (p : PState) (m : Machine)
    (h1 : p.has_tip = true) (h2 : p.current_well = none)
    (vol s : ℚ) (nt : ℕ) (ht : Option ℚ) :
    blowout p m s = raise p m PErr.attributeError ∧
    air_gap p m vol = raise p m PErr.attributeError ∧
    stir p m nt ht = raise p m PErr.attributeError := by
  obtain ⟨idx, mxv, mnv, zp, bp, dp, k, htp, ip, cw, fat, ti, tl, tov, tof⟩ := p
  replace h1 : htp = true := h1
  replace h2 : cw = none := h2
  subst h1
  subst h2
  exact ⟨rfl, rfl, rfl⟩

/-- C5 amended witness: the concrete no-current-well pipette. -/
theorem no_well_ops_attribute_error_witness :
    pNoWell.has_tip = true ∧ pNoWell.current_well = none ∧
    (blowout pNoWell mBase 3000 = raise pNoWell mBase PErr.attributeError ∧
     air_gap pNoWell mBase 50 = raise pNoWell mBase PErr.attributeError ∧
     stir pNoWell mBase 1 none = raise pNoWell mBase PErr.attributeError) :=
  ⟨rfl, rfl, no_well_ops_attribute_error pNoWell mBase rfl rfl 50 3000 1 none⟩

/-- C6: the stir position guard raises only when the x position differs
    from round(well.x) AND the y position differs from round(well.y, 2);
    at machine position (10, 25, 3.5) over a well at (10, 20) the x
    coordinate matches while y is off by 5, yet stir proceeds and issues
    the circular-arc stir motion instead of raising ToolStateError. -/
theorem stir_guard_uses_and :
    mBase.x = ((pyRound0 wellA.x : ℤ) : ℚ) ∧
    mBase.y ≠ pyRound2 wellA.y ∧
    (stir pBase mBase 1 none).err = none ∧
    (stir pBase mBase 1 none).trace = [Cmd.gcodeArc 10 20 none (-2) 0, Cmd.gcodeWait] := by
  refine ⟨?_, ?_, ?_, ?_⟩ <;>
    norm_num [stir, stirLoop, tip_check, Res.andThen, gcodeArc, gcodeWait, moveZ, mkRes,
      raise, pyRound2, pyRound0, round_eq, pBase, mBase, wellA]

/-- C7: dispensing into a bare well, whose resolved z is the well's resting
    z, travels at the resolved z plus 10; dispensing at an explicit-offset
    Location whose resolved z differs from the labware's resting z travels
    at the resolved z unchanged. In both cases the plunger then advances by
    vol2move(vol). -/
theorem dispense_z_policy (p : PState) (m : Machine) (vol s : ℚ)
    (h : p.has_tip = true) (w lw : Well) (px py pz : ℚ) (hz : pz ≠ lw.z) :
    (dispense p m vol (Loc.well w) s).trace =
      [Cmd.safeZ, Cmd.moveXY w.x w.y, Cmd.moveZ (w.z + 10),
       Cmd.moveV (m.v + vol2move p vol)] ∧
    (dispense p m vol (Loc.loc px py pz lw) s).trace =
      [Cmd.safeZ, Cmd.moveXY px py, Cmd.moveZ pz,
       Cmd.moveV (m.v + vol2move p vol)] := by
  obtain ⟨idx, mxv, mnv, zp, bp, dp, k, htp, ip, cw, fat, ti, tl, tov, tof⟩ := p
  replace h : htp = true := h
  subst h
  constructor <;>
    simp [dispense, tip_check, setCurrentWell, getxyz, _dispense, Res.andThen,
      safe_z, moveXY, moveZ, moveV, mkRes, vol2move]

/-- C7 witness: dispense(50) into the bare wellA travels at z = 3 + 10 and
    dispense(50) at a Location 1 above wellA's resting z travels at 4. -/
theorem dispense_z_policy_witness :
    pBase.has_tip = true ∧ (4 : ℚ) ≠ wellA.z ∧
    ((dispense pBase mBase 50 (Loc.well wellA) 2000).trace =
       [Cmd.safeZ, Cmd.moveXY wellA.x wellA.y, Cmd.moveZ (wellA.z + 10),
        Cmd.moveV (mBase.v + vol2move pBase 50)] ∧
     (dispense pBase mBase 50 (Loc.loc 10 20 4 wellA) 2000).trace =
       [Cmd.safeZ, Cmd.moveXY 10 20, Cmd.moveZ 4,
        Cmd.moveV (mBase.v + vol2move pBase 50)]) :=
  ⟨rfl, by norm_num [wellA], dispense_z_policy pBase mBase 50 2000 rfl wellA wellA 10 20 4
      (by norm_num [wellA])⟩

/-- C9 counterexample: prev on a cursor at 0 raises StopIteration but first
    decrements the cursor to -1, leaving it outside [0, length]. -/
theorem prev_at_zero_decrements_cex :
    (pipette_iterator.prev ⟨[tipW], 0⟩).1.index = -1 ∧
    (pipette_iterator.prev ⟨[tipW], 0⟩).1.tiprack = [tipW] ∧
    (pipette_iterator.prev ⟨[tipW], 0⟩).2 = Except.error IterErr.stopIteration ∧
    ¬ 0 ≤ (pipette_iterator.prev ⟨[tipW], 0⟩).1.index := by
  refine ⟨rfl, rfl, rfl, ?_⟩
  show ¬ (0 : ℤ) ≤ -1
  decide

lemma iterMk_index (tr : List Well) (i : ℤ) : (⟨tr, i⟩ : pipette_iterator).index = i := rfl

lemma iterMk_tiprack (tr : List Well) (i : ℤ) :
    (⟨tr, i⟩ : pipette_iterator).tiprack = tr := rfl

/-- C9 amended: starting from cursor ∈ [0, length], next keeps the cursor
    in [0, length] and at cursor == length fails with StopIteration leaving
    the iterator unchanged; prev keeps the cursor only in [-1, length], and
    at cursor == 0 fails with StopIteration having decremented the cursor
    to -1. -/
theorem iterator_cursor_bounds (it : pipette_iterator)
    (h : 0 ≤ it.index ∧ it.index ≤ (it.tiprack.length : ℤ)) :
    (0 ≤ it.next.1.index ∧ it.next.1.index ≤ (it.next.1.tiprack.length : ℤ)) ∧
    (-1 ≤ it.prev.1.index ∧ it.prev.1.index ≤ (it.prev.1.tiprack.length : ℤ)) ∧
    (it.index = (it.tiprack.length : ℤ) →
      it.next.1 = it ∧ it.next.2 = Except.error IterErr.stopIteration) ∧
    (it.index = 0 →
      it.prev.1.index = -1 ∧ it.prev.2 = Except.error IterErr.stopIteration) := by
  obtain ⟨tr, i⟩ := it
  obtain ⟨h0, h1⟩ := h
  replace h0 : 0 ≤ i := h0
  replace h1 : i ≤ (tr.length : ℤ) := h1
  refine ⟨?_, ?_, ?_, ?_⟩
  · unfold pipette_iterator.next pyGet
    simp only [iterMk_index, iterMk_tiprack]
    by_cases hlt : i < (tr.length : ℤ)
    · have htn : i.toNat < tr.length := by omega
      rw [if_pos ⟨h0, hlt⟩, List.get?_eq_get htn]
      simp only [iterMk_index, iterMk_tiprack]
      omega
    · rw [if_neg (by omega), if_neg (by omega)]
      simp only [iterMk_index, iterMk_tiprack]
      omega
  · unfold pipette_iterator.prev pyGet
    simp only [iterMk_index, iterMk_tiprack]
    by_cases hz : i - 1 < 0
    · rw [if_pos hz]
      simp only [iterMk_index, iterMk_tiprack]
      omega
    · rw [if_neg hz]
      have htn2 : (i - 1).toNat < tr.length := by omega
      rw [if_pos ⟨by omega, by omega⟩, List.get?_eq_get htn2]
      simp only [iterMk_index, iterMk_tiprack]
      omega
  · intro he
    replace he : i = (tr.length : ℤ) := he
    subst he
    unfold pipette_iterator.next pyGet
    simp only [iterMk_index, iterMk_tiprack]
    rw [if_neg (by omega), if_neg (by omega)]
    exact ⟨rfl, rfl⟩
  · intro he
    replace he : i = 0 := he
    subst he
    exact ⟨rfl, rfl⟩

lemma andThen_primed {r : Res} {f : PState → Machine → Res}
    (hr : r.p.is_primed = true)
    (hf : ∀ q mq, q.is_primed = true → (f q mq).p.is_primed = true) :
    (r.andThen f).p.is_primed = true := by
  unfold Res.andThen
  cases he : r.err with
  | some e => exact hr
  | none => exact hf r.p r.m hr

lemma tip_check_primed {p : PState} {m : Machine} {f : PState → Machine → Res}
    (h : p.is_primed = true) (hf : (f p m).p.is_primed = true) :
    (tip_check p m f).p.is_primed = true := by
  unfold tip_check
  split
  · exact h
  · exact hf

lemma setCurrentWell_primed (p : PState) (loc : Loc) :
    (setCurrentWell p loc).is_primed = p.is_primed := by
  cases loc <;> rfl

lemma prime_primed (p : PState) (m : Machine) (s : ℚ) :
    (prime p m s).p.is_primed = true := rfl

lemma _aspirate_primed (p : PState) (m : Machine) (vol s : ℚ) :
    (_aspirate p m vol s).p.is_primed = true := by
  unfold _aspirate
  by_cases hp : p.is_primed = true
  · rw [if_pos hp]
    exact andThen_primed hp fun q mq hq => hq
  · rw [if_neg hp]
    exact andThen_primed (prime_primed p m 2500) fun q mq hq => hq

lemma aspirate_primed (p : PState) (m : Machine) (vol : ℚ) (loc : Loc) (s : ℚ)
    (h : p.is_primed = true) :
    (aspirate p m vol loc s).p.is_primed = true := by
  unfold aspirate
  refine tip_check_primed h ?_
  refine andThen_primed ?_ fun q mq hq => ?_
  · show (setCurrentWell p loc).is_primed = true
    rw [setCurrentWell_primed]; exact h
  refine andThen_primed hq fun q2 mq2 hq2 => ?_
  refine andThen_primed hq2 fun q3 mq3 hq3 => ?_
  exact _aspirate_primed q3 mq3 vol s

lemma _dispense_primed (p : PState) (m : Machine) (vol s : ℚ)
    (h : p.is_primed = true) :
    (_dispense p m vol s).p.is_primed = true := by
  unfold _dispense
  exact tip_check_primed h h

lemma dispense_primed (p : PState) (m : Machine) (vol : ℚ) (loc : Loc) (s : ℚ)
    (h : p.is_primed = true) :
    (dispense p m vol loc s).p.is_primed = true := by
  unfold dispense
  refine tip_check_primed h ?_
  refine andThen_primed ?_ fun q mq hq => ?_
  · show (setCurrentWell p loc).is_primed = true
    rw [setCurrentWell_primed]; exact h
  refine andThen_primed hq fun q2 mq2 hq2 => ?_
  refine andThen_primed hq2 fun q3 mq3 hq3 => ?_
  exact _dispense_primed q3 mq3 vol s hq3

lemma blowout_primed (p : PState) (m : Machine) (s : ℚ) (h : p.is_primed = true) :
    (blowout p m s).p.is_primed = true := by
  unfold blowout
  refine tip_check_primed h ?_
  cases p.current_well with
  | none => exact h
  | some well =>
    refine andThen_primed h fun q mq hq => ?_
    refine andThen_primed hq fun q2 mq2 hq2 => ?_
    exact prime_primed q2 mq2 2500

lemma air_gap_primed (p : PState) (m : Machine) (vol : ℚ) (h : p.is_primed = true) :
    (air_gap p m vol).p.is_primed = true := by
  unfold air_gap
  refine tip_check_primed h ?_
  cases p.current_well with
  | none => exact h
  | some well => exact andThen_primed h fun q mq hq => hq

lemma mixLoop_primed : ∀ (n : ℕ) (p : PState) (m : Machine) (vol s : ℚ),
    p.is_primed = true → (mixLoop p m vol n s).p.is_primed = true := by
  intro n
  induction n with
  | zero => intro p m vol s h; exact h
  | succ k ih =>
    intro p m vol s h
    unfold mixLoop
    refine andThen_primed (_aspirate_primed p m vol s) fun q mq hq => ?_
    exact andThen_primed (prime_primed q mq s) fun q2 mq2 hq2 => ih q2 mq2 vol s hq2

lemma mix_primed (p : PState) (m : Machine) (vol : ℚ) (n : ℕ) (s : ℚ)
    (h : p.is_primed = true) :
    (mix p m vol n s).p.is_primed = true := by
  unfold mix
  refine tip_check_primed h ?_
  cases p.current_well with
  | none => exact h
  | some well =>
    refine andThen_primed h fun q mq hq => ?_
    refine andThen_primed (prime_primed q mq 2500) fun q2 mq2 hq2 => ?_
    exact andThen_primed hq2 fun q3 mq3 hq3 => mixLoop_primed n q3 mq3 vol s hq3

lemma stirLoop_primed : ∀ (n : ℕ) (p : PState) (m : Machine) (well : Well)
    (z radius : ℚ) (height : Option ℚ), p.is_primed = true →
    (stirLoop p m well z radius n height).p.is_primed = true := by
  intro n
  induction n with
  | zero => intro p m well z radius height h; exact h
  | succ k ih =>
    intro p m well z radius height h
    unfold stirLoop
    refine andThen_primed ?_ fun q mq hq => ih q mq well z radius height hq
    cases height with
    | none => exact andThen_primed h fun q mq hq => hq
    | some hh =>
      refine andThen_primed h fun q mq hq => ?_
      exact andThen_primed hq fun q2 mq2 hq2 => hq2

lemma stir_primed (p : PState) (m : Machine) (nt : ℕ) (ht : Option ℚ)
    (h : p.is_primed = true) :
    (stir p m nt ht).p.is_primed = true := by
  unfold stir
  refine tip_check_primed h ?_
  cases p.current_well with
  | none => exact h
  | some well =>
    dsimp only
    split
    · exact h
    · refine andThen_primed ?_ fun q mq hq => stirLoop_primed nt q mq well _ _ ht hq
      split
      · exact h
      · exact h

lemma transferLoop_primed : ∀ (dsts : List Loc) (p : PState) (m : Machine)
    (vol_ xs ys zs : ℚ) (source_well : Loc) (s : ℚ) (bl : Option Loc)
    (mb ma : Option (ℚ × ℕ)), p.is_primed = true →
    (transferLoop p m vol_ xs ys zs source_well dsts s bl mb ma).p.is_primed = true := by
  intro dsts
  induction dsts with
  | nil => intro p m vol_ xs ys zs source_well s bl mb ma h; exact h
  | cons w rest ih =>
    intro p m vol_ xs ys zs source_well s bl mb ma h
    unfold transferLoop
    refine andThen_primed h fun q mq hq => ?_
    refine andThen_primed hq fun q2 mq2 hq2 => ?_
    refine andThen_primed hq2 fun q3 mq3 hq3 => ?_
    refine andThen_primed (_aspirate_primed (setCurrentWell q3 source_well) mq3 vol_ s)
      fun q4 mq4 hq4 => ?_
    refine andThen_primed ?_ fun q5 mq5 hq5 => ?_
    · cases mb with
      | none => exact hq4
      | some b => exact mix_primed q4 mq4 b.1 b.2 5000 hq4
    refine andThen_primed hq5 fun q6 mq6 hq6 => ?_
    refine andThen_primed hq6 fun q7 mq7 hq7 => ?_
    refine andThen_primed hq7 fun q8 mq8 hq8 => ?_
    have hsw : (setCurrentWell q8 w).is_primed = true := by
      rw [setCurrentWell_primed]; exact hq8
    refine andThen_primed (_dispense_primed (setCurrentWell q8 w) mq8 vol_ s hsw)
      fun q9 mq9 hq9 => ?_
    refine andThen_primed ?_ fun q10 mq10 hq10 => ?_
    · cases ma with
      | none => exact hq9
      | some a => exact mix_primed q9 mq9 a.1 a.2 5000 hq9
    refine andThen_primed ?_ fun q11 mq11 hq11 => ?_
    · cases bl with
      | none => exact hq10
      | some b => exact blowout_primed q10 mq10 3000 hq10
    exact ih q11 mq11 vol_ xs ys zs source_well s bl mb ma hq11

lemma transfer_primed (p : PState) (m : Machine) (vol : ℚ) (src : Loc)
    (dsts : List Loc) (s : ℚ) (bl : Option Loc) (mb ma : Option (ℚ × ℕ))
    (ntp : NewTip) (h : p.is_primed = true) :
    (transfer p m vol src dsts s bl mb ma ntp).p.is_primed = true := by
  unfold transfer
  refine tip_check_primed h ?_
  refine andThen_primed ?_ fun q mq hq =>
    transferLoop_primed dsts q mq _ _ _ _ src s bl mb ma hq
  split
  all_goals first
  | exact h
  | exact prime_primed p m 2500

lemma _pickup_tip_primed (p : PState) (m : Machine) (z : ℚ)
    (h : p.is_primed = true) :
    (_pickup_tip p m z).p.is_primed = true := by
  unfold _pickup_tip
  split
  · exact h
  · exact h

lemma _drop_tip_primed (p : PState) (m : Machine) (h : p.is_primed = true) :
    (_drop_tip p m).p.is_primed = true := by
  unfold _drop_tip
  split
  · exact h
  · exact h

lemma pickup_tip_primed (p : PState) (m : Machine) (tip_arg : Option Loc)
    (h : p.is_primed = true) :
    (pickup_tip p m tip_arg).p.is_primed = true := by
  unfold pickup_tip
  cases resolveTip p tip_arg with
  | none => exact h
  | some tip =>
    refine andThen_primed h fun q mq hq => ?_
    refine andThen_primed hq fun q2 mq2 hq2 => ?_
    refine andThen_primed (_pickup_tip_primed q2 mq2 _ hq2) fun q3 mq3 hq3 => ?_
    refine andThen_primed ?_ fun q4 mq4 hq4 => hq4
    show ({ q3 with has_tip := true } : PState).is_primed = true
    exact hq3

lemma increment_tip_primed (p : PState) (m : Machine) (h : p.is_primed = true) :
    (increment_tip p m).p.is_primed = true := by
  unfold increment_tip
  rcases hn : p.tipiterator.next with ⟨it, r⟩
  cases r with
  | ok w => exact h
  | error e => exact h

lemma drop_tip_primed (p : PState) (m : Machine) (loc : Loc)
    (h : p.is_primed = true) :
    (drop_tip p m loc).p.is_primed = true := by
  unfold drop_tip
  refine tip_check_primed h ?_
  refine andThen_primed h fun q mq hq => ?_
  refine andThen_primed hq fun q2 mq2 hq2 => ?_
  refine andThen_primed (_drop_tip_primed q2 mq2 hq2) fun q3 mq3 hq3 => ?_
  refine andThen_primed (prime_primed q3 mq3 2500) fun q4 mq4 hq4 => ?_
  refine andThen_primed ?_ fun q5 mq5 hq5 => increment_tip_primed q5 mq5 hq5
  show ({ q4 with has_tip := false } : PState).is_primed = true
  exact hq4

lemma return_tip_primed (p : PState) (m : Machine) (loc : Option Loc)
    (h : p.is_primed = true) :
    (return_tip p m loc).p.is_primed = true := by
  unfold return_tip
  split
  · exact h
  · refine andThen_primed h fun q mq hq => ?_
    refine andThen_primed hq fun q2 mq2 hq2 => ?_
    refine andThen_primed hq2 fun q3 mq3 hq3 => ?_
    refine andThen_primed (_drop_tip_primed q3 mq3 hq3) fun q4 mq4 hq4 => ?_
    refine andThen_primed hq4 fun q5 mq5 hq5 => ?_
    refine andThen_primed (prime_primed q5 mq5 2500) fun q6 mq6 hq6 => ?_
    show ({ q6 with has_tip := false } : PState).is_primed = true
    exact hq6

/-- C10: once is_primed is true it stays true: every operation of the tool,
    successful or failing, leaves is_primed true when it was true before,
    so the silent auto-prime branch of _aspirate and transfer can fire at
    most once after the first successful prime. -/
theorem is_primed_monotone (p : PState) (m : Machine) (h : p.is_primed = true)
    (vol : ℚ) (loc : Loc) (s : ℚ) (n nt : ℕ) (ht : Option ℚ) (z : ℚ)
    (dsts : List Loc) (bl : Option Loc) (mb ma : Option (ℚ × ℕ))
    (ntp : NewTip) (tip_arg rloc : Option Loc) :
    (prime p m s).p.is_primed = true ∧
    (_aspirate p m vol s).p.is_primed = true ∧
    (aspirate p m vol loc s).p.is_primed = true ∧
    (_dispense p m vol s).p.is_primed = true ∧
    (dispense p m vol loc s).p.is_primed = true ∧
    (transfer p m vol loc dsts s bl mb ma ntp).p.is_primed = true ∧
    (blowout p m s).p.is_primed = true ∧
    (air_gap p m vol).p.is_primed = true ∧
    (mix p m vol n s).p.is_primed = true ∧
    (stir p m nt ht).p.is_primed = true ∧
    (_pickup_tip p m z).p.is_primed = true ∧
    (pickup_tip p m tip_arg).p.is_primed = true ∧
    (_drop_tip p m).p.is_primed = true ∧
    (drop_tip p m loc).p.is_primed = true ∧
    (return_tip p m rloc).p.is_primed = true ∧
    (increment_tip p m).p.is_primed = true :=
  ⟨prime_primed p m s, _aspirate_primed p m vol s, aspirate_primed p m vol loc s h,
   _dispense_primed p m vol s h, dispense_primed p m vol loc s h,
   transfer_primed p m vol loc dsts s bl mb ma ntp h, blowout_primed p m s h,
   air_gap_primed p m vol h, mix_primed p m vol n s h, stir_primed p m nt ht h,
   _pickup_tip_primed p m z h, pickup_tip_primed p m tip_arg h,
   _drop_tip_primed p m h, drop_tip_primed p m loc h,
   return_tip_primed p m rloc h, increment_tip_primed p m h⟩

/-- C10 witness: the concrete primed pipette stays primed across every
    operation. -/
theorem is_primed_monotone_witness :
    pBase.is_primed = true ∧
    ((prime pBase mBase 2000).p.is_primed = true ∧
     (_aspirate pBase mBase 50 2000).p.is_primed = true ∧
     (aspirate pBase mBase 50 (Loc.well wellA) 2000).p.is_primed = true ∧
     (_dispense pBase mBase 50 2000).p.is_primed = true ∧
     (dispense pBase mBase 50 (Loc.well wellA) 2000).p.is_primed = true ∧
     (transfer pBase mBase 50 (Loc.well wellA) [Loc.well dstW] 2000 none none none
        NewTip.always).p.is_primed = true ∧
     (blowout pBase mBase 2000).p.is_primed = true ∧
     (air_gap pBase mBase 50).p.is_primed = true ∧
     (mix pBase mBase 50 3 2000).p.is_primed = true ∧
     (stir pBase mBase 1 none).p.is_primed = true ∧
     (_pickup_tip pBase mBase 70).p.is_primed = true ∧
     (pickup_tip pBase mBase (some (Loc.tup 7 8 9))).p.is_primed = true ∧
     (_drop_tip pBase mBase).p.is_primed = true ∧
     (drop_tip pBase mBase (Loc.well wellA)).p.is_primed = true ∧
     (return_tip pBase mBase none).p.is_primed = true ∧
     (increment_tip pBase mBase).p.is_primed = true) :=
  ⟨rfl, is_primed_monotone pBase mBase rfl 50 (Loc.well wellA) 2000 3 1 none 70
      [Loc.well dstW] none none none NewTip.always (some (Loc.tup 7 8 9)) none⟩

/-- C9 amended witness: the one-slot rack with the cursor at 0. -/
theorem iterator_cursor_bounds_witness :
    (0 ≤ (⟨[tipW], 0⟩ : pipette_iterator).index ∧
     (⟨[tipW], 0⟩ : pipette_iterator).index ≤ ((⟨[tipW], 0⟩ : pipette_iterator).tiprack.length : ℤ)) ∧
    ((0 ≤ (pipette_iterator.next ⟨[tipW], 0⟩).1.index ∧
      (pipette_iterator.next ⟨[tipW], 0⟩).1.index ≤
        ((pipette_iterator.next ⟨[tipW], 0⟩).1.tiprack.length : ℤ)) ∧
     (-1 ≤ (pipette_iterator.prev ⟨[tipW], 0⟩).1.index ∧
      (pipette_iterator.prev ⟨[tipW], 0⟩).1.index ≤
        ((pipette_iterator.prev ⟨[tipW], 0⟩).1.tiprack.length : ℤ)) ∧
     ((⟨[tipW], 0⟩ : pipette_iterator).index = (((⟨[tipW], 0⟩ : pipette_iterator).tiprack.length : ℤ)) →
       (pipette_iterator.next ⟨[tipW], 0⟩).1 = ⟨[tipW], 0⟩ ∧
       (pipette_iterator.next ⟨[tipW], 0⟩).2 = Except.error IterErr.stopIteration) ∧
     ((⟨[tipW], 0⟩ : pipette_iterator).index = 0 →
       (pipette_iterator.prev ⟨[tipW], 0⟩).1.index = -1 ∧
       (pipette_iterator.prev ⟨[tipW], 0⟩).2 = Except.error IterErr.stopIteration)) :=
  ⟨by decide, iterator_cursor_bounds ⟨[tipW], 0⟩ (by decide)⟩

end SJ

